import Mathlib

/-!
Verification development for the kuduq-consumer backend
(`app.py`, `chalicelib/rapydmoney.py`, `chalicelib/parsemessage.py`).

The Python code is shallowly embedded: JSON/Python values become the
inductive `PyVal`, raising code returns `Except PyErr`, the external
payment provider and the mailer are modelled as oracles supplying the
raw responses that `requests`/SMTP would produce, and the handlers'
post-processing of those responses is translated line by line from the
source.  Python `float` arithmetic is idealised as exact rational
arithmetic (`ℚ`); `decimal.Decimal` values are likewise modelled as
rationals (non-finite decimals such as NaN/Infinity are outside the
model).
-/

/-- A decoded JSON / Python value, as produced by `json.loads` and
manipulated by the handlers.  `none` is Python `None`. -/
inductive PyVal where
  | none
  | bool (b : Bool)
  | num (q : ℚ)
  | str (s : String)
  | arr (xs : List PyVal)
  | obj (kvs : List (String × PyVal))
deriving Repr

/-- Python truthiness (`bool(v)`): `None`/`False`/`0`/empty containers are
falsy, everything else is truthy. -/
def PyVal.truthy : PyVal → Bool
  | .none => false
  | .bool b => b
  | .num q => decide (q ≠ 0)
  | .str s => decide (s ≠ "")
  | .arr xs => !xs.isEmpty
  | .obj kvs => !kvs.isEmpty

/-- Exceptions that the embedded code can raise. -/
inductive PyErr where
  | typeError
  | keyError (k : String)
  | valueError (msg : String)
  | validationError
  | rapydAPIError (statusCode : Int) (body : String)
deriving Repr, DecidableEq

instance {ε α : Type} [DecidableEq ε] [DecidableEq α] : DecidableEq (Except ε α) := fun a b =>
  match a, b with
  | .error e, .error f => decidable_of_iff (e = f) (by simp)
  | .ok x, .ok y => decidable_of_iff (x = y) (by simp)
  | .error _, .ok _ => isFalse (fun h => Except.noConfusion h)
  | .ok _, .error _ => isFalse (fun h => Except.noConfusion h)

/-- Character-list test: `n` occurs at the start of `h`. -/
def listStartsWith : List Char → List Char → Bool
  | [], _ => true
  | _ :: _, [] => false
  | c :: cs, d :: ds => c == d && listStartsWith cs ds

/-- Character-list test: `n` occurs contiguously somewhere in `h`. -/
def listHasSub (n : List Char) : List Char → Bool
  | [] => n.isEmpty
  | d :: ds => listStartsWith n (d :: ds) || listHasSub n ds

/-- Python's `needle in hay` for strings (contiguous substring test). -/
def strContains (hay needle : String) : Bool :=
  listHasSub needle.toList hay.toList

/-- ASCII lower-casing of a character (Python `str.lower` restricted to
ASCII, which covers every string the handlers compare). -/
def charLower (c : Char) : Char :=
  if c.isUpper then Char.ofNat (c.toNat + 32) else c

/-- ASCII lower-casing of a string. -/
def asciiLower (s : String) : String :=
  String.mk (s.toList.map charLower)

/-- Strip leading and trailing whitespace from a character list. -/
def trimChars (l : List Char) : List Char :=
  ((l.dropWhile Char.isWhitespace).reverse.dropWhile Char.isWhitespace).reverse

mutual
/-- Python `repr` of a value (used by `str()` on non-strings).  String
escaping of special characters is not modelled; only the quote-choice
rule is.  No theorem below depends on the exact rendering of containers
or numbers. -/
def pyRepr : PyVal → String
  | .none => "None"
  | .bool b => if b then "True" else "False"
  | .num q => toString q
  | .str s =>
      let q := String.singleton (Char.ofNat 39)
      let dq := String.singleton (Char.ofNat 34)
      if strContains s q && !strContains s dq then dq ++ s ++ dq
      else q ++ s ++ q
  | .arr xs => "[" ++ pyReprList xs ++ "]"
  | .obj kvs => "\x7b" ++ pyReprObj kvs ++ "\x7d"

/-- Comma-separated reprs of a list of values. -/
def pyReprList : List PyVal → String
  | [] => ""
  | [x] => pyRepr x
  | x :: rest => pyRepr x ++ ", " ++ pyReprList rest

/-- Comma-separated reprs of a dict's key/value pairs. -/
def pyReprObj : List (String × PyVal) → String
  | [] => ""
  | [(k, v)] => pyRepr (.str k) ++ ": " ++ pyRepr v
  | (k, v) :: rest => pyRepr (.str k) ++ ": " ++ pyRepr v ++ ", " ++ pyReprObj rest
end

/-- Python `str()` of a value. -/
def pyStr : PyVal → String
  | .str s => s
  | v => pyRepr v

/-- Python `'k' in v`: key test for dicts, substring test for strings,
element test for lists; raises `TypeError` on non-iterables. -/
def pyMem (k : String) : PyVal → Except PyErr Bool
  | .obj kvs => .ok (kvs.any (fun kv => kv.1 == k))
  | .str s => .ok (strContains s k)
  | .arr xs => .ok (xs.any (fun v => match v with | .str s => s == k | _ => false))
  | _ => .error .typeError

/-- Python `v[k]` for a string key: dict lookup (raising `KeyError` when
absent); strings and lists require integer indices, so a string subscript
raises `TypeError`, as do scalars. -/
def pySubscr (v : PyVal) (k : String) : Except PyErr PyVal :=
  match v with
  | .obj kvs =>
      match kvs.lookup k with
      | some x => .ok x
      | none => .error (.keyError k)
  | _ => .error .typeError

/-- Division of a rational by 100, phrased with `mkRat` so that closed
terms evaluate inside the kernel; `div100_eq_div` identifies it with
`q / 100`. -/
def div100 (q : ℚ) : ℚ := mkRat q.num (q.den * 100)

theorem div100_eq_div (q : ℚ) : div100 q = q / 100 := by
  rw [div100, Rat.mkRat_eq_div]
  push_cast
  rw [div_mul_eq_div_div, Rat.num_div_den]

/-- Python `v / 100.0` (the only division the handlers perform): numbers
and bools divide, everything else raises `TypeError`. -/
def pyDiv100 : PyVal → Except PyErr ℚ
  | .num q => .ok (div100 q)
  | .bool b => .ok (div100 (if b then 1 else 0))
  | _ => .error .typeError

/-- `json_body.get(k)`: dict lookup defaulting to `None`. -/
def bget (body : List (String × PyVal)) (k : String) : PyVal :=
  (body.lookup k).getD .none

/-- Digit-list value (most significant first); fails on non-digits or an
empty list. -/
def digitsVal : List Char → Option ℕ
  | [] => Option.none
  | l => go l 0
where
  go : List Char → ℕ → Option ℕ
  | [], acc => some acc
  | c :: cs, acc =>
      if c.isDigit then go cs (acc * 10 + (c.toNat - 48)) else Option.none

/-- Split a character list at the first occurrence of `sep`. -/
def splitAtChar (sep : Char) : List Char → List Char × Option (List Char)
  | [] => ([], Option.none)
  | c :: cs =>
      if c == sep then ([], some cs)
      else
        let (pre, post) := splitAtChar sep cs
        (c :: pre, post)

/-- Parse an optional leading sign, returning the sign and the rest. -/
def takeSign : List Char → ℤ × List Char
  | '+' :: cs => (1, cs)
  | '-' :: cs => (-1, cs)
  | cs => (1, cs)

/-- Parse a decimal mantissa `digits[.digits]` (at least one digit in
total) into a digit value and a fraction length. -/
def parseMantissa (l : List Char) : Option (ℕ × ℕ) :=
  let (ip, fpOpt) := splitAtChar '.' l
  match fpOpt with
  | Option.none => (digitsVal ip).map (fun n => (n, 0))
  | some fp =>
      if ip.isEmpty && fp.isEmpty then Option.none
      else (digitsVal (ip ++ fp)).map (fun n => (n, fp.length))

/-- `decimal.Decimal(s)` restricted to finite decimal literals
`[sign] digits [. digits] [E [sign] digits]` (whitespace stripped,
case-insensitive exponent marker).  Non-finite spellings (NaN, Infinity)
are outside the model and fail here.  The value is assembled with
`mkRat` so that closed instances evaluate inside the kernel. -/
def decimalOfString (s : String) : Option ℚ :=
  let l := (trimChars s.toList).map charLower
  let (sgn, l) := takeSign l
  let (mant, expOpt) := splitAtChar 'e' l
  match parseMantissa mant with
  | Option.none => Option.none
  | some (n, fracLen) =>
      match expOpt with
      | Option.none => some (mkRat (sgn * n) (10 ^ fracLen))
      | some ec =>
          let (esgn, ed) := takeSign ec
          match digitsVal ed with
          | Option.none => Option.none
          | some e =>
              let scale : ℤ := esgn * e - fracLen
              if 0 ≤ scale then some (mkRat (sgn * n * 10 ^ scale.toNat) 1)
              else some (mkRat (sgn * n) (10 ^ (-scale).toNat))

example : decimalOfString "12.5" = some (mkRat 25 2) := by decide
example : decimalOfString "40.00" = some (40 : ℚ) := by decide
example : decimalOfString "1E+2" = some (100 : ℚ) := by decide
example : decimalOfString "bogus" = Option.none := by decide
example : PyVal.truthy (.str "x") = true := by decide
example : strContains "a message b" "message" = true := by decide
example : strContains "transfer ok" "successful" = false := by decide

/-! ### chalicelib/rapydmoney.py -/

/-- `RapydMoneyUser` (pydantic model): six required string fields,
populated from the aliased API keys. -/
structure RapydMoneyUser where
  id : String
  email : String
  first_name : String
  last_name : String
  public_key : String
  payment_identifier : String
deriving Repr, DecidableEq

/-- `RapydMoneyUser.from_api` / `model_validate`: requires a dict with
the six aliased keys bound to strings; anything else raises a pydantic
`ValidationError` (extra keys are ignored). -/
def RapydMoneyUser.from_api (data : PyVal) : Except PyErr RapydMoneyUser :=
  match data with
  | .obj kvs =>
      match kvs.lookup "id", kvs.lookup "email", kvs.lookup "firstName",
            kvs.lookup "lastName", kvs.lookup "publicKey",
            kvs.lookup "paymentIdentifier" with
      | some (.str i), some (.str e), some (.str f), some (.str l),
        some (.str p), some (.str pid) =>
          .ok { id := i, email := e, first_name := f, last_name := l,
                public_key := p, payment_identifier := pid }
      | _, _, _, _, _, _ => .error .validationError
  | _ => .error .validationError

/-- Python truthiness of a pydantic model instance: `BaseModel` defines
neither `__bool__` nor `__len__`, so every instance is truthy. -/
def userTruthy (_ : RapydMoneyUser) : Bool := true

/-- `RapydMoneyBalance`: two decimal amounts defaulting to zero. -/
structure RapydMoneyBalance where
  zar : ℚ := 0
  usd : ℚ := 0
deriving Repr, DecidableEq

/-- Python truthiness of a `RapydMoneyBalance` instance (always truthy,
as for any pydantic `BaseModel`). -/
def balanceTruthy (_ : RapydMoneyBalance) : Bool := true

/-- The token-list scan inside `RapydMoneyBalance.from_api`: for each
dict entry, read `name` and `balance` (defaulting `"0"`), convert the
balance with `Decimal(str(...))` falling back to 0 on failure, and
overwrite the ZAR/USD accumulator when the name matches literally. -/
def scanTokens : List PyVal → ℚ × ℚ → ℚ × ℚ
  | [], acc => acc
  | t :: rest, (z, u) =>
      match t with
      | .obj kvs =>
          let balRaw := (kvs.lookup "balance").getD (.str "0")
          let bal := (decimalOfString (pyStr balRaw)).getD 0
          match kvs.lookup "name" with
          | some (.str n) =>
              if n = "L ZAR Coin" then scanTokens rest (bal, u)
              else if n = "L USD Coin" then scanTokens rest (z, bal)
              else scanTokens rest (z, u)
          | _ => scanTokens rest (z, u)
      | _ => scanTokens rest (z, u)

/-- `RapydMoneyBalance.from_api`: normalize to the object that carries
`tokens` (either top-level or nested under `balance`), then scan the
token list; a missing or non-list `tokens` yields zeros. -/
def RapydMoneyBalance.from_api (data : PyVal) : RapydMoneyBalance :=
  let src : PyVal :=
    match data with
    | .obj kvs =>
        if kvs.any (fun kv => kv.1 == "tokens") then data
        else
          match kvs.lookup "balance" with
          | some (.obj ikvs) => .obj ikvs
          | _ => .obj []
    | _ => .obj []
  let tokens : List PyVal :=
    match src with
    | .obj kvs =>
        match kvs.lookup "tokens" with
        | some (.arr xs) => xs
        | _ => []
    | _ => []
  let (z, u) := scanTokens tokens (0, 0)
  { zar := z, usd := u }

/-- The external payment provider, modelled as the raw decoded value (or
error) that `RapydMoneyService._request` would produce for each endpoint:
a `.error` is a `RapydMoneyAPIError` raised on transport failure or a
non-2xx status, a `.ok` is the decoded 2xx body (or raw text / `None`). -/
structure RapydOracle where
  getUserResp : String → Except PyErr PyVal
  balanceResp : String → Except PyErr PyVal
  recipientResp : String → Except PyErr PyVal
  transferResp : String → String → ℚ → String → Except PyErr PyVal
  mintResp : PyVal → Except PyErr PyVal
  createUserResp : PyVal → Except PyErr PyVal
  activatePayResp : String → Except PyErr PyVal

/-- `RapydMoneyService.get_user`: unwrap an optional `user` envelope,
validate into a `RapydMoneyUser`, and raise on an unexpected shape. -/
def get_user (o : RapydOracle) (user_id : String) : Except PyErr RapydMoneyUser :=
  match o.getUserResp user_id with
  | .error e => .error e
  | .ok data =>
      match data with
      | .obj kvs =>
          match kvs.lookup "user" with
          | some (.obj ukvs) => RapydMoneyUser.from_api (.obj ukvs)
          | _ => RapydMoneyUser.from_api (.obj kvs)
      | _ => .error (.rapydAPIError (-1) "Unexpected response shape for get_user")

/-- The `src` selection inside `RapydMoneyService.get_balance`: unwrap
an optional `balance` envelope, defaulting to `{}` on a non-dict
response. -/
def balanceSrc : PyVal → PyVal
  | .obj kvs =>
      match kvs.lookup "balance" with
      | some (.obj bkvs) => .obj bkvs
      | _ => .obj kvs
  | _ => .obj []

/-- `RapydMoneyService.get_balance`: unwrap an optional `balance`
envelope and normalize with `RapydMoneyBalance.from_api`. -/
def get_balance (o : RapydOracle) (user_id : String) : Except PyErr RapydMoneyBalance :=
  match o.balanceResp user_id with
  | .error e => .error e
  | .ok data => .ok (RapydMoneyBalance.from_api (balanceSrc data))

/-- `RapydMoneyService.get_recipient`: unwrap an optional `recipient`
envelope. -/
def get_recipient (o : RapydOracle) (payment_identifier : String) : Except PyErr PyVal :=
  match o.recipientResp payment_identifier with
  | .error e => .error e
  | .ok data =>
      match data with
      | .obj kvs =>
          match kvs.lookup "recipient" with
          | some (.obj rkvs) => .ok (.obj rkvs)
          | _ => .ok (.obj kvs)
      | _ => .ok data

/-- `RapydMoneyService.mint`: the raw response is returned unchanged. -/
def mint (o : RapydOracle) (mint_data : PyVal) : Except PyErr PyVal :=
  o.mintResp mint_data

/-- The response check at the end of `RapydMoneyService.do_transfer`:
return `data` when it is truthy, contains `message`, and the lowered
string form of `data['message']` contains `"successful"`; return Python
`False` otherwise.  Membership and subscripting follow Python semantics
and can raise `TypeError` on a truthy non-dict response. -/
def doTransferPost (r : Except PyErr PyVal) : Except PyErr PyVal :=
  match r with
  | .error e => .error e
  | .ok data =>
      if data.truthy then
        match pyMem "message" data with
        | .error e => .error e
        | .ok b =>
            if b then
              match pySubscr data "message" with
              | .error e => .error e
              | .ok m =>
                  if strContains (asciiLower (pyStr m)) "successful" then .ok data
                  else .ok (.bool false)
            else .ok (.bool false)
      else .ok (.bool false)

/-- `RapydMoneyService.do_transfer`: send the transfer request and apply
the success check to the raw response. -/
def do_transfer (o : RapydOracle) (from_user_id to_user_identifier : String)
    (amount : ℚ) (trx_id : String) : Except PyErr PyVal :=
  doTransferPost (o.transferResp from_user_id to_user_identifier amount trx_id)

/-! ### app.py - HTTP handlers -/

/-- Response body of `/can-pay` on insufficient ZAR balance. -/
def insufficientResp : PyVal :=
  .obj [("result", .bool false), ("message", .str "Insufficient funds")]

/-- Response body of `/can-pay` on a sufficient balance. -/
def canPayOkResp : PyVal := .obj [("result", .bool true)]

/-- Response body of `/can-pay` when `studentId` is falsy. -/
def userNotFoundResp : PyVal :=
  .obj [("result", .bool false), ("message", .str "User not found")]

/-- Success body shared by `/pay-user` and `/sponsor-user`. -/
def payOkResp : PyVal :=
  .obj [("result", .bool true), ("message", .str "Sponsor user transfer successful")]

/-- Failure body shared by `/pay-user` and `/sponsor-user`. -/
def payFailResp : PyVal :=
  .obj [("result", .bool false), ("message", .str "Sponsor transfer failed")]

/-- Invalid-request body shared by `/pay-user` and `/sponsor-user`. -/
def payInvalidResp : PyVal :=
  .obj [("result", .bool false), ("message", .str "Sponsor transfer failed, invalid request")]

/-- Response body of `/fund-user` when a sponsor id was supplied. -/
def fundOkResp : PyVal := .obj [("message", .str "User can pay")]

/-- Response body of `/fund-user` when no sponsor id was supplied. -/
def fundNoSponsorResp : PyVal := .obj [("message", .str "User cannot pay")]

/-- `api_can_pay` (`POST /can-pay`): the division `amount_cents / 100.0`
happens before the `studentId` check; a truthy balance (which is every
balance) is compared against the amount; when the balance were falsy the
function would fall through and implicitly return `None`. -/
def api_can_pay (o : RapydOracle) (body : List (String × PyVal)) : Except PyErr PyVal :=
  let from_user_id := bget body "studentId"
  let amount_cents := bget body "amount_cents"
  match pyDiv100 amount_cents with
  | .error e => .error e
  | .ok amount =>
      if from_user_id.truthy then
        match get_balance o (pyStr from_user_id) with
        | .error e => .error e
        | .ok from_user_balance =>
            if balanceTruthy from_user_balance then
              if from_user_balance.zar < amount then .ok insufficientResp
              else .ok canPayOkResp
            else .ok .none
      else .ok userNotFoundResp

/-- The response handling shared by the tail of `api_pay_user` and
`api_sponsor_user`: re-inspect the `do_transfer` result and emit the
success body exactly when it is truthy with a `message` containing
`"successful"` (case-insensitively); otherwise the failure body. -/
def appPayTail (r : Except PyErr PyVal) : Except PyErr PyVal :=
  match r with
  | .error e => .error e
  | .ok resp =>
      if resp.truthy then
        match pyMem "message" resp with
        | .error e => .error e
        | .ok b =>
            if b then
              match pySubscr resp "message" with
              | .error e => .error e
              | .ok m =>
                  if strContains (asciiLower (pyStr m)) "successful" then .ok payOkResp
                  else .ok payFailResp
            else .ok payFailResp
      else .ok payFailResp

/-- `api_pay_user` (`POST /pay-user`): requires truthy `merchantId` and
`studentId`, resolves both parties and the student's recipient handle,
transfers from the student to the merchant's payment identifier, and
maps the transfer response through `appPayTail`. -/
def api_pay_user (o : RapydOracle) (body : List (String × PyVal)) : Except PyErr PyVal :=
  let merchant_id := bget body "merchantId"
  let student_id := bget body "studentId"
  if merchant_id.truthy && student_id.truthy then
    let idempotency_key := bget body "idempotency_key"
    match pyDiv100 (bget body "amount_cents") with
    | .error e => .error e
    | .ok amount =>
        match get_user o (pyStr merchant_id) with
        | .error e => .error e
        | .ok merchant_user =>
            match get_user o (pyStr student_id) with
            | .error e => .error e
            | .ok student_user =>
                if userTruthy merchant_user && userTruthy student_user then
                  match get_recipient o student_user.payment_identifier with
                  | .error e => .error e
                  | .ok recipient =>
                      if recipient.truthy then
                        appPayTail (do_transfer o student_user.id
                          merchant_user.payment_identifier amount
                          ("Idem_" ++ pyStr idempotency_key))
                      else .ok payFailResp
                else .ok payFailResp
  else .ok payInvalidResp

/-- The mint request dict built by `api_fund_user`. -/
def fundMintRequest (amount : ℚ) (u : RapydMoneyUser) (sponsorId : PyVal) : PyVal :=
  .obj [("transactionAmount", .num amount),
        ("transactionRecipient", .str u.payment_identifier),
        ("transactionNotes",
          .str ("EFT deposit " ++ pyStr (.num amount) ++ " to " ++ pyStr sponsorId))]

/-- `api_fund_user` (`POST /fund-user`): with a truthy `sponsorId` the
party is resolved and a mint is issued whose outcome is only logged; the
returned body is the same either way.  Without a sponsor id a different
generic body is returned before any other work. -/
def api_fund_user (o : RapydOracle) (body : List (String × PyVal)) : Except PyErr PyVal :=
  let sponsor_id := bget body "sponsorId"
  if sponsor_id.truthy then
    match pyDiv100 (bget body "amount_cents") with
    | .error e => .error e
    | .ok amount =>
        match get_user o (pyStr sponsor_id) with
        | .error e => .error e
        | .ok existing_user =>
            if userTruthy existing_user then
              match mint o (fundMintRequest amount existing_user sponsor_id) with
              | .error e => .error e
              | .ok _resp => .ok fundOkResp
            else .ok fundOkResp
  else .ok fundNoSponsorResp

/-- `api_sponsor_user` (`POST /sponsor-user`): identical control flow to
`api_pay_user`, transferring from the sponsor to the student's payment
identifier. -/
def api_sponsor_user (o : RapydOracle) (body : List (String × PyVal)) : Except PyErr PyVal :=
  let sponsor_id := bget body "sponsorId"
  let student_id := bget body "studentId"
  if sponsor_id.truthy && student_id.truthy then
    let idempotency_key := bget body "idempotency_key"
    match pyDiv100 (bget body "amount_cents") with
    | .error e => .error e
    | .ok amount =>
        match get_user o (pyStr sponsor_id) with
        | .error e => .error e
        | .ok sponsor_user =>
            match get_user o (pyStr student_id) with
            | .error e => .error e
            | .ok student_user =>
                if userTruthy sponsor_user && userTruthy student_user then
                  match get_recipient o student_user.payment_identifier with
                  | .error e => .error e
                  | .ok recipient =>
                      if recipient.truthy then
                        appPayTail (do_transfer o sponsor_user.id
                          student_user.payment_identifier amount
                          ("Idem_" ++ pyStr idempotency_key))
                      else .ok payFailResp
                else .ok payFailResp
  else .ok payInvalidResp

/-! ### chalicelib/parsemessage.py -/

/-- `UserRole` enum. -/
inductive UserRole where
  | merchant
  | student
  | admin
  | sponsor
deriving Repr, DecidableEq

/-- `UserRole(s)`: match a string against the enum's values. -/
def roleOfString : String → Option UserRole
  | "merchant" => some .merchant
  | "student" => some .student
  | "admin" => some .admin
  | "sponsor" => some .sponsor
  | _ => Option.none

/-- The enum member's `.value`. -/
def roleValue : UserRole → String
  | .merchant => "merchant"
  | .student => "student"
  | .admin => "admin"
  | .sponsor => "sponsor"

/-- `Keys` (pydantic model): the Pk/Sk pair of the originating record. -/
structure Keys where
  Pk : String
  Sk : String
deriving Repr, DecidableEq

/-- `UserEnvelope` (pydantic model): the registered user's fields. -/
structure UserEnvelope where
  id : String
  email : String
  role : Option UserRole := Option.none
  firstName : Option String := Option.none
  lastName : Option String := Option.none
  studentNumber : Option String := Option.none
  is_active : Option Bool := Option.none
  created_at : Option String := Option.none
deriving Repr, DecidableEq

/-- `UserRegisteredMessage` (pydantic model, eventType fixed by a
`Literal`). -/
structure UserRegisteredMessage where
  timestamp : String
  user : UserEnvelope
  keys : Keys
  table : String
  source : String
deriving Repr, DecidableEq

/-- `StudentMagicLinkRequestedMessage` (pydantic model, eventType fixed
by a `Literal`). -/
structure StudentMagicLinkRequestedMessage where
  timestamp : String
  email : String
  magicToken : String
  linkUrl : Option String := Option.none
  source : Option String := Option.none
deriving Repr, DecidableEq

/-- A fully-typed envelope: exactly one variant per registered event
type. -/
inductive ParsedMessage where
  | userRegistered (m : UserRegisteredMessage)
  | magicLink (m : StudentMagicLinkRequestedMessage)
deriving Repr, DecidableEq

/-- Failures of `SqsModelRegistry.parse`, mirroring the `ValueError`s it
raises (plus the `TypeError` a non-dict argument can cause). -/
inductive ParseErr where
  | missingEventType
  | unknownEventType (v : PyVal)
  | schemaError
  | typeErr
deriving Repr

/-- Validation of an `Optional[str]` field: absent or `None` is `None`,
a string is itself, anything else is rejected. -/
def optStrField (kvs : List (String × PyVal)) (k : String) : Option (Option String) :=
  match kvs.lookup k with
  | Option.none => some Option.none
  | some .none => some Option.none
  | some (.str s) => some (some s)
  | some _ => Option.none

/-- Validation of a required `str` field. -/
def reqStrField (kvs : List (String × PyVal)) (k : String) : Option String :=
  match kvs.lookup k with
  | some (.str s) => some s
  | _ => Option.none

/-- Validation of the `Optional[bool]` field `is_active`.  (Pydantic's
lax coercions from strings or ints to bool are not modelled; no claim
below exercises them.) -/
def optBoolField (kvs : List (String × PyVal)) (k : String) : Option (Option Bool) :=
  match kvs.lookup k with
  | Option.none => some Option.none
  | some .none => some Option.none
  | some (.bool b) => some (some b)
  | some _ => Option.none

/-- Validation of the `Optional[UserRole]` field. -/
def optRoleField (kvs : List (String × PyVal)) (k : String) : Option (Option UserRole) :=
  match kvs.lookup k with
  | Option.none => some Option.none
  | some .none => some Option.none
  | some (.str s) => (roleOfString s).map some
  | some _ => Option.none

/-- Validation of the `Literal` eventType field of a registered model:
absent falls back to the default, present must equal the literal. -/
def literalEventField (kvs : List (String × PyVal)) (lit : String) : Option Unit :=
  match kvs.lookup "eventType" with
  | Option.none => some ()
  | some (.str s) => if s = lit then some () else Option.none
  | some _ => Option.none

/-- `UserEnvelope` validation (`model_validate` on the nested value):
required `id` and `email` strings (`email` additionally passing the
`EmailStr` validator, supplied as the parameter `emailOk`), optional
role/name/number/flag/timestamp fields; unknown keys are ignored. -/
def validateUserEnvelope (emailOk : String → Bool) (v : PyVal) : Option UserEnvelope := do
  match v with
  | .obj kvs =>
      let id ← reqStrField kvs "id"
      let email ← reqStrField kvs "email"
      if emailOk email then
        let role ← optRoleField kvs "role"
        let firstName ← optStrField kvs "firstName"
        let lastName ← optStrField kvs "lastName"
        let studentNumber ← optStrField kvs "studentNumber"
        let is_active ← optBoolField kvs "is_active"
        let created_at ← optStrField kvs "created_at"
        some { id := id, email := email, role := role, firstName := firstName,
               lastName := lastName, studentNumber := studentNumber,
               is_active := is_active, created_at := created_at }
      else Option.none
  | _ => Option.none

/-- `Keys` validation. -/
def validateKeys (v : PyVal) : Option Keys := do
  match v with
  | .obj kvs =>
      let pk ← reqStrField kvs "Pk"
      let sk ← reqStrField kvs "Sk"
      some { Pk := pk, Sk := sk }
  | _ => Option.none

/-- `UserRegisteredMessage.model_validate` on the raw top-level dict. -/
def validateUserRegistered (emailOk : String → Bool)
    (kvs : List (String × PyVal)) : Option UserRegisteredMessage := do
  let _ ← literalEventField kvs "USER_REGISTERED"
  let timestamp ← reqStrField kvs "timestamp"
  let userV ← kvs.lookup "user"
  let user ← validateUserEnvelope emailOk userV
  let keysV ← kvs.lookup "keys"
  let keys ← validateKeys keysV
  let table ← reqStrField kvs "table"
  let source ← reqStrField kvs "source"
  some { timestamp := timestamp, user := user, keys := keys,
         table := table, source := source }

/-- `StudentMagicLinkRequestedMessage.model_validate` on the raw
top-level dict. -/
def validateMagicLink (emailOk : String → Bool)
    (kvs : List (String × PyVal)) : Option StudentMagicLinkRequestedMessage := do
  let _ ← literalEventField kvs "STUDENT_MAGIC_LINK_REQUESTED"
  let timestamp ← reqStrField kvs "timestamp"
  let email ← reqStrField kvs "email"
  if emailOk email then
    let magicToken ← reqStrField kvs "magicToken"
    let linkUrl ← optStrField kvs "linkUrl"
    let source ← optStrField kvs "source"
    some { timestamp := timestamp, email := email, magicToken := magicToken,
           linkUrl := linkUrl, source := source }
  else Option.none

/-- `SqsModelRegistry.parse` (as instantiated by `sqs_registry` with the
two registered models), via `parse_sqs_message`: fail when `eventType`
is absent, fail when its value is outside the closed set, validate with
the registered schema, and otherwise return the typed envelope.  The
`EmailStr` validator of the pydantic library is abstracted as the
parameter `emailOk`. -/
def parse_sqs_message (emailOk : String → Bool) (data : PyVal) :
    Except ParseErr ParsedMessage :=
  match data with
  | .obj kvs =>
      match kvs.lookup "eventType" with
      | Option.none => .error .missingEventType
      | some v =>
          match v with
          | .str s =>
              if s = "USER_REGISTERED" then
                match validateUserRegistered emailOk kvs with
                | some m => .ok (.userRegistered m)
                | Option.none => .error .schemaError
              else if s = "STUDENT_MAGIC_LINK_REQUESTED" then
                match validateMagicLink emailOk kvs with
                | some m => .ok (.magicLink m)
                | Option.none => .error .schemaError
              else .error (.unknownEventType (.str s))
          | _ => .error (.unknownEventType v)
  | .arr xs =>
      if xs.any (fun v => match v with | .str s => s == "eventType" | _ => false) then
        .error .typeErr
      else .error .missingEventType
  | .str s =>
      if strContains s "eventType" then .error .typeErr
      else .error .missingEventType
  | _ => .error .typeErr

/-! ### app.py - queue consumer -/

/-- Inner check of the normalizer: the decoded `Message` payload is kept
only when it is a dict containing `eventType`. -/
def innerHasEvent : PyVal → Bool
  | .obj kvs => (kvs.lookup "eventType").isSome
  | _ => false

/-- The body normalization at the top of `handle_my_queue`.  `jdec`
stands for `json.loads`, with `Option.none` for a decode failure; a body
whose outer decode fails yields `Option.none` (the record is dropped and
the loop continues).  When the decoded value is a dict with a string
`Message` field, one inner decode is attempted; the inner value replaces
the outer one only if it is a dict containing `eventType`. -/
def normalizeBody (jdec : String → Option PyVal) (body : String) : Option PyVal :=
  match jdec body with
  | Option.none => Option.none
  | some data =>
      match data with
      | .obj kvs =>
          match kvs.lookup "Message" with
          | some (.str s) =>
              match jdec s with
              | some inner => if innerHasEvent inner then some inner else some data
              | Option.none => some data
          | _ => some data
      | _ => some data

/-- Observable actions taken while handling one queue record. -/
inductive QEffect where
  | decodeFailed
  | schemaFailed
  | welcomeSent (email : String) (ok : Bool)
  | welcomeFailed
  | userCreated (id : String)
  | payActivated (id : String)
  | provisionFailed
  | magicSent (email : String) (ok : Bool)
  | magicFailed
deriving Repr, DecidableEq

/-- The mailer and the provider's provisioning endpoints, as oracles:
`.error` models an exception raised inside the call, a Bool result is
the mailer's returned flag. -/
structure DispatchOracle where
  sendWelcome : String → Option String → Option String → Except PyErr Bool
  sendMagic : String → String → Option String → Except PyErr Bool
  createUserResp : PyVal → Except PyErr PyVal
  activatePayResp : String → Except PyErr PyVal

/-- Python truthiness of an `Optional[str]`: `None` and the empty string
are falsy. -/
def optTruthy : Option String → Bool
  | some s => decide (s ≠ "")
  | Option.none => false

/-- Display-name composition in the `USER_REGISTERED` branch. -/
def composeName (f l : Option String) : Option String :=
  if optTruthy f && optTruthy l then some (f.getD "" ++ " " ++ l.getD "")
  else if optTruthy f then f
  else if optTruthy l then l
  else Option.none

/-- The welcome-email step of the `USER_REGISTERED` branch: any raise is
caught and logged, so the step always yields an effect list. -/
def welcomeStep (o : DispatchOracle) (user : UserEnvelope) : List QEffect :=
  let user_name := composeName user.firstName user.lastName
  let role := user.role.map roleValue
  match o.sendWelcome user.email user_name role with
  | .ok ok => [.welcomeSent user.email ok]
  | .error _ => [.welcomeFailed]

/-- The new-user dict sent to the provider during provisioning. -/
def newUserDict (user : UserEnvelope) : PyVal :=
  .obj [("id", .str user.id),
        ("email", .str user.email),
        ("firstName", match user.firstName with | some s => .str s | Option.none => .none),
        ("lastName", match user.lastName with | some s => .str s | Option.none => .none)]

/-- The provider-provisioning step of the `USER_REGISTERED` branch:
`create_user` then `activate_pay`, under one try/except; a raise in
either sub-call is caught (so a failed `create_user` skips
`activate_pay`, and neither is rolled back). -/
def provisionStep (o : DispatchOracle) (user : UserEnvelope) : List QEffect :=
  if user.email ≠ "" then
    match o.createUserResp (newUserDict user) with
    | .error _ => [.provisionFailed]
    | .ok _ =>
        match o.activatePayResp user.id with
        | .error _ => [.userCreated user.id, .provisionFailed]
        | .ok _ => [.userCreated user.id, .payActivated user.id]
  else []

/-- The `STUDENT_MAGIC_LINK_REQUESTED` branch: one mailer call with any
raise caught and logged. -/
def magicStep (o : DispatchOracle) (m : StudentMagicLinkRequestedMessage) : List QEffect :=
  match o.sendMagic m.email m.magicToken m.linkUrl with
  | .ok ok => [.magicSent m.email ok]
  | .error _ => [.magicFailed]

/-- Handling of one SQS record inside the `handle_my_queue` loop:
normalize (dropping undecodable bodies), validate, and dispatch by event
type; every failure is caught and turned into a logged effect, never a
raise. -/
def handleOne (emailOk : String → Bool) (jdec : String → Option PyVal)
    (o : DispatchOracle) (body : String) : List QEffect :=
  match normalizeBody jdec body with
  | Option.none => [.decodeFailed]
  | some data =>
      match parse_sqs_message emailOk data with
      | .error _ => [.schemaFailed]
      | .ok (.userRegistered m) => welcomeStep o m.user ++ provisionStep o m.user
      | .ok (.magicLink m) => magicStep o m

/-- `handle_my_queue`: process the batch records sequentially, in
delivery order, accumulating each record's effects. -/
def handle_my_queue (emailOk : String → Bool) (jdec : String → Option PyVal)
    (o : DispatchOracle) (records : List String) : List QEffect :=
  (records.map (handleOne emailOk jdec o)).flatten

/-! ### Helper lemmas -/

theorem lookup_any_eq_isSome (kvs : List (String × PyVal)) (k : String) :
    kvs.any (fun kv => kv.1 == k) = (kvs.lookup k).isSome := by
  induction kvs with
  | nil => rfl
  | cons hd tl ih =>
      by_cases h : hd.1 = k
      · simp [List.lookup, h]
      · have h2 : (k == hd.1) = false := by
          simp [beq_eq_false_iff_ne]
          exact fun he => h he.symm
        have h3 : (hd.1 == k) = false := by
          simp [beq_eq_false_iff_ne]
          exact h
        simp [List.lookup, h2, h3, ih]

theorem lookup_append_single (l : List (String × PyVal)) (k k' : String) (v : PyVal)
    (h : k' ≠ k) : (l ++ [(k, v)]).lookup k' = l.lookup k' := by
  induction l with
  | nil =>
      have : (k' == k) = false := by simp [beq_eq_false_iff_ne]; exact h
      simp [List.lookup, this]
  | cons hd tl ih =>
      by_cases h2 : k' = hd.1
      · simp [List.lookup, h2]
      · have : (k' == hd.1) = false := by simp [beq_eq_false_iff_ne]; exact h2
        simp [List.lookup, this, ih]


/-! ### Claim C7 -/

/-- C7: for every queue batch, the effects of a batch decompose into the
independent per-record effects, whatever the middle record `r` contains
and however the mailer/provider oracles behave — so a failure while
handling one message (decode failure, validation failure, or an
exception inside its dispatch handler, all of which `handleOne` absorbs
into effects) never prevents the later records from being normalized,
validated and dispatched exactly as they would be on their own. -/
theorem c7_batch_isolation (emailOk : String → Bool) (jdec : String → Option PyVal)
    (o : DispatchOracle) (pre post : List String) (r : String) :
    handle_my_queue emailOk jdec o (pre ++ r :: post) =
      handle_my_queue emailOk jdec o pre ++ handleOne emailOk jdec o r ++
        handle_my_queue emailOk jdec o post := by
  simp [handle_my_queue, List.map_append]

/-! ### Claim C10 -/

/-- C10: `get_balance` is total on returned responses — whatever raw
value the provider's balance call produced, the result is an (always
truthy) `RapydMoneyBalance` — and consequently in `api_can_pay` the
fall-through branch that would implicitly return `None` is unreachable:
with a truthy `studentId`, a numeric `amount_cents` and a returning
balance call, the handler returns one of its two explicit result
bodies. -/
theorem c10_balance_total :
    (∀ (o : RapydOracle) (uid : String) (raw : PyVal), o.balanceResp uid = .ok raw →
      ∃ b : RapydMoneyBalance, get_balance o uid = .ok b ∧ balanceTruthy b = true)
    ∧ (∀ (o : RapydOracle) (body : List (String × PyVal)) (sv : PyVal) (c : ℚ) (raw : PyVal),
      bget body "studentId" = sv → sv.truthy = true →
      bget body "amount_cents" = .num c → o.balanceResp (pyStr sv) = .ok raw →
      api_can_pay o body ≠ .ok PyVal.none ∧
        (api_can_pay o body = .ok insufficientResp ∨ api_can_pay o body = .ok canPayOkResp)) := by
  constructor
  · intro o uid raw h
    refine ⟨RapydMoneyBalance.from_api (balanceSrc raw), ?_, rfl⟩
    simp only [get_balance, h]
  · intro o body sv c raw hsv htr hc hresp
    have hres : api_can_pay o body =
        .ok (if (RapydMoneyBalance.from_api (balanceSrc raw)).zar < div100 c
             then insufficientResp else canPayOkResp) := by
      simp only [api_can_pay, hsv, hc, pyDiv100, get_balance, hresp, htr, if_true,
        balanceTruthy]
      split <;> rfl
    by_cases hlt : (RapydMoneyBalance.from_api (balanceSrc raw)).zar < div100 c
    · rw [hres, if_pos hlt]
      exact ⟨by simp [insufficientResp], Or.inl rfl⟩
    · rw [hres, if_neg hlt]
      exact ⟨by simp [canPayOkResp], Or.inr rfl⟩

/-- Witness for C10 at a concrete oracle and request. -/
def c10Oracle : RapydOracle where
  getUserResp := fun _ => .ok .none
  balanceResp := fun _ => .ok (.obj [("tokens",
    .arr [.obj [("name", .str "L ZAR Coin"), ("balance", .str "40.00")]])])
  recipientResp := fun _ => .ok .none
  transferResp := fun _ _ _ _ => .ok .none
  mintResp := fun _ => .ok .none
  createUserResp := fun _ => .ok .none
  activatePayResp := fun _ => .ok .none

theorem c10_witness :
    api_can_pay c10Oracle [("studentId", .str "S1"), ("amount_cents", .num 5000)] ≠
      .ok PyVal.none :=
  ((c10_balance_total.2 c10Oracle
    [("studentId", .str "S1"), ("amount_cents", .num 5000)]
    (.str "S1") 5000
    (.obj [("tokens", .arr [.obj [("name", .str "L ZAR Coin"), ("balance", .str "40.00")]])])
    rfl rfl rfl rfl).1)

/-! ### Claim C9 -/

/-- C9: `api_fund_user` returns the same generic success-shaped body for
every request carrying a truthy `sponsorId` (and a numeric amount),
regardless of which user the party lookup returned and regardless of the
mint response `r` — including falsy responses, whose failure is only
logged; without `sponsorId` a different generic body is returned
unconditionally. -/
theorem c9_fund_user_generic :
    (∀ (o : RapydOracle) (body : List (String × PyVal)),
      body.lookup "sponsorId" = Option.none →
      api_fund_user o body = .ok fundNoSponsorResp)
    ∧ (∀ (o : RapydOracle) (body : List (String × PyVal)) (sv : PyVal) (c : ℚ)
        (u : RapydMoneyUser) (r : PyVal),
      bget body "sponsorId" = sv → sv.truthy = true →
      bget body "amount_cents" = .num c →
      get_user o (pyStr sv) = .ok u →
      o.mintResp (fundMintRequest (div100 c) u sv) = .ok r →
      api_fund_user o body = .ok fundOkResp) := by
  constructor
  · intro o body h
    have hb : bget body "sponsorId" = PyVal.none := by simp [bget, h]
    simp [api_fund_user, hb, PyVal.truthy]
  · intro o body sv c u r hsv htr hc hu hm
    simp only [api_fund_user, hsv, hc, htr, if_true, pyDiv100, hu, mint, hm, userTruthy]

/-- Witness for C9 at a concrete oracle: the mint response is falsy
(`None`), yet the generic success-shaped body is returned. -/
def c9Oracle : RapydOracle where
  getUserResp := fun _ => .ok (.obj [("id", .str "sp1"), ("email", .str "sp@x.y"),
    ("firstName", .str "S"), ("lastName", .str "P"), ("publicKey", .str "pk"),
    ("paymentIdentifier", .str "pay-sp")])
  balanceResp := fun _ => .ok .none
  recipientResp := fun _ => .ok .none
  transferResp := fun _ _ _ _ => .ok .none
  mintResp := fun _ => .ok .none
  createUserResp := fun _ => .ok .none
  activatePayResp := fun _ => .ok .none

theorem c9_witness :
    api_fund_user c9Oracle [("sponsorId", .str "sp1"), ("amount_cents", .num 2500)] =
      .ok fundOkResp ∧
    api_fund_user c9Oracle [] = .ok fundNoSponsorResp :=
  ⟨c9_fund_user_generic.2 c9Oracle
      [("sponsorId", .str "sp1"), ("amount_cents", .num 2500)]
      (.str "sp1") 2500
      { id := "sp1", email := "sp@x.y", first_name := "S", last_name := "P",
        public_key := "pk", payment_identifier := "pay-sp" }
      .none rfl rfl rfl rfl rfl,
   c9_fund_user_generic.1 c9Oracle [] rfl⟩

/-! ### Claim C8 -/

/-- The name a token entry carries, when it is a dict whose `name` field
is a string (the only case `scanTokens` matches on). -/
def tokName : PyVal → Option String
  | .obj kvs =>
      match kvs.lookup "name" with
      | some (.str s) => some s
      | _ => Option.none
  | _ => Option.none

/-- A balance response with a top-level token list. -/
def tokensObj (ts : List PyVal) : PyVal := .obj [("tokens", .arr ts)]

/-- A ZAR token entry. -/
def zarToken (b : String) : PyVal :=
  .obj [("name", .str "L ZAR Coin"), ("balance", .str b)]

/-- A USD token entry. -/
def usdToken (b : String) : PyVal :=
  .obj [("name", .str "L USD Coin"), ("balance", .str b)]

theorem scanTokens_append (a b : List PyVal) (acc : ℚ × ℚ) :
    scanTokens (a ++ b) acc = scanTokens b (scanTokens a acc) := by
  induction a generalizing acc with
  | nil => rfl
  | cons t rest ih =>
      obtain ⟨z, u⟩ := acc
      cases t with
      | obj kvs =>
          simp only [List.cons_append, scanTokens]
          split <;> try exact ih _
          split <;> [exact ih _; skip]
          split <;> exact ih _
      | none => exact ih _
      | bool b => exact ih _
      | num q => exact ih _
      | str s => exact ih _
      | arr xs => exact ih _

theorem scanTokens_skip (t : PyVal) (rest : List PyVal) (acc : ℚ × ℚ)
    (hz : tokName t ≠ some "L ZAR Coin") (hu : tokName t ≠ some "L USD Coin") :
    scanTokens (t :: rest) acc = scanTokens rest acc := by
  obtain ⟨z, u⟩ := acc
  cases t with
  | obj kvs =>
      simp only [scanTokens]
      simp only [tokName] at hz hu
      split
      · next n heq =>
          rw [heq] at hz hu
          have hz2 : n ≠ "L ZAR Coin" := fun h => hz (by rw [h])
          have hu2 : n ≠ "L USD Coin" := fun h => hu (by rw [h])
          rw [if_neg hz2, if_neg hu2]
      · rfl
  | none => rfl
  | bool b => rfl
  | num q => rfl
  | str s => rfl
  | arr xs => rfl

theorem scanTokens_fst_const (ts : List PyVal)
    (h : ∀ t ∈ ts, tokName t ≠ some "L ZAR Coin") (z u : ℚ) :
    (scanTokens ts (z, u)).1 = z := by
  induction ts generalizing z u with
  | nil => rfl
  | cons t rest ih =>
      have ht := h t (List.mem_cons_self t rest)
      have hrest : ∀ x ∈ rest, tokName x ≠ some "L ZAR Coin" :=
        fun x hx => h x (List.mem_cons_of_mem t hx)
      cases t with
      | obj kvs =>
          simp only [scanTokens]
          simp only [tokName] at ht
          split
          · next n heq =>
              rw [heq] at ht
              have ht2 : n ≠ "L ZAR Coin" := fun h => ht (by rw [h])
              rw [if_neg ht2]
              split <;> exact ih hrest _ _
          · exact ih hrest _ _
      | none => exact ih hrest _ _
      | bool b => exact ih hrest _ _
      | num q => exact ih hrest _ _
      | str s => exact ih hrest _ _
      | arr xs => exact ih hrest _ _

theorem scanTokens_snd_const (ts : List PyVal)
    (h : ∀ t ∈ ts, tokName t ≠ some "L USD Coin") (z u : ℚ) :
    (scanTokens ts (z, u)).2 = u := by
  induction ts generalizing z u with
  | nil => rfl
  | cons t rest ih =>
      have ht := h t (List.mem_cons_self t rest)
      have hrest : ∀ x ∈ rest, tokName x ≠ some "L USD Coin" :=
        fun x hx => h x (List.mem_cons_of_mem t hx)
      cases t with
      | obj kvs =>
          simp only [scanTokens]
          simp only [tokName] at ht
          split
          · next n heq =>
              rw [heq] at ht
              have ht2 : n ≠ "L USD Coin" := fun h => ht (by rw [h])
              by_cases hz : n = "L ZAR Coin"
              · rw [if_pos hz]
                exact ih hrest _ _
              · rw [if_neg hz, if_neg ht2]
                exact ih hrest _ _
          · exact ih hrest _ _
      | none => exact ih hrest _ _
      | bool b => exact ih hrest _ _
      | num q => exact ih hrest _ _
      | str s => exact ih hrest _ _
      | arr xs => exact ih hrest _ _

theorem from_api_tokensObj (ts : List PyVal) :
    RapydMoneyBalance.from_api (tokensObj ts) =
      { zar := (scanTokens ts (0, 0)).1, usd := (scanTokens ts (0, 0)).2 } := rfl

/-- C8: `RapydMoneyBalance.from_api` (a) treats a token list nested
under `balance` exactly like a top-level one, (b) ignores every entry
not literally named `"L ZAR Coin"` or `"L USD Coin"`, (c,d) defaults the
missing currency to zero, (e,f) stores the decimal value of the last
matching entry for each of the two names, and (g) sends the spec's
example `{"tokens":[{"name":"L ZAR Coin","balance":"12.5"}]}` to
`zar = 12.5, usd = 0`. -/
theorem c8_balance_normalization :
    (∀ ts : List PyVal,
      RapydMoneyBalance.from_api (.obj [("balance", tokensObj ts)]) =
        RapydMoneyBalance.from_api (tokensObj ts))
    ∧ (∀ (l1 l2 : List PyVal) (t : PyVal),
        tokName t ≠ some "L ZAR Coin" → tokName t ≠ some "L USD Coin" →
        RapydMoneyBalance.from_api (tokensObj (l1 ++ t :: l2)) =
          RapydMoneyBalance.from_api (tokensObj (l1 ++ l2)))
    ∧ (∀ ts : List PyVal, (∀ t ∈ ts, tokName t ≠ some "L ZAR Coin") →
        (RapydMoneyBalance.from_api (tokensObj ts)).zar = 0)
    ∧ (∀ ts : List PyVal, (∀ t ∈ ts, tokName t ≠ some "L USD Coin") →
        (RapydMoneyBalance.from_api (tokensObj ts)).usd = 0)
    ∧ (∀ (ts : List PyVal) (b : String),
        RapydMoneyBalance.from_api (tokensObj (ts ++ [zarToken b])) =
          { zar := (decimalOfString b).getD 0,
            usd := (RapydMoneyBalance.from_api (tokensObj ts)).usd })
    ∧ (∀ (ts : List PyVal) (b : String),
        RapydMoneyBalance.from_api (tokensObj (ts ++ [usdToken b])) =
          { zar := (RapydMoneyBalance.from_api (tokensObj ts)).zar,
            usd := (decimalOfString b).getD 0 })
    ∧ RapydMoneyBalance.from_api (tokensObj [zarToken "12.5"]) =
        { zar := mkRat 25 2, usd := 0 } := by
  refine ⟨fun ts => rfl, ?_, ?_, ?_, ?_, ?_, by decide⟩
  · intro l1 l2 t hz hu
    rw [from_api_tokensObj, from_api_tokensObj, scanTokens_append,
      scanTokens_skip t l2 _ hz hu, ← scanTokens_append]
  · intro ts h
    rw [from_api_tokensObj]
    exact scanTokens_fst_const ts h 0 0
  · intro ts h
    rw [from_api_tokensObj]
    exact scanTokens_snd_const ts h 0 0
  · intro ts b
    rw [from_api_tokensObj, from_api_tokensObj, scanTokens_append]
    obtain ⟨z, u⟩ := scanTokens ts (0, 0)
    rfl
  · intro ts b
    rw [from_api_tokensObj, from_api_tokensObj, scanTokens_append]
    obtain ⟨z, u⟩ := scanTokens ts (0, 0)
    rfl

/-- Witness for C8: a USD-only token list defaults `zar` to zero, and an
unrelated token name is ignored. -/
theorem c8_witness :
    (RapydMoneyBalance.from_api (tokensObj [usdToken "3.5"])).zar = 0 ∧
    RapydMoneyBalance.from_api
        (tokensObj ([zarToken "7"] ++
          [.obj [("name", .str "L GBP Coin"), ("balance", .str "9")]] ++ [])) =
      RapydMoneyBalance.from_api (tokensObj ([zarToken "7"] ++ [])) :=
  ⟨c8_balance_normalization.2.2.1 [usdToken "3.5"] (by decide),
   c8_balance_normalization.2.1 [zarToken "7"] []
     (.obj [("name", .str "L GBP Coin"), ("balance", .str "9")])
     (by decide) (by decide)⟩

/-! ### Claim C1 -/

/-- A provider whose balance endpoint raises a `RapydMoneyAPIError`
(e.g. a 500 response); all other endpoints are irrelevant here. -/
def c1Oracle : RapydOracle where
  getUserResp := fun _ => .error (.rapydAPIError 502 "upstream down")
  balanceResp := fun _ => .error (.rapydAPIError 500 "boom")
  recipientResp := fun _ => .ok .none
  transferResp := fun _ _ _ _ => .ok .none
  mintResp := fun _ => .ok .none
  createUserResp := fun _ => .ok .none
  activatePayResp := fun _ => .ok .none

/-- Counterexample to C1: on a well-formed `/can-pay` request, a raising
provider call makes the handler itself raise — the error propagates out
of the handler instead of being converted into a response-level failure
body.  (The same happens in the other three handlers, see
`c1_amended_errors_propagate`.) -/
theorem c1_counterexample :
    api_can_pay c1Oracle [("studentId", .str "S1"), ("amount_cents", .num 5000)] =
      .error (PyErr.rapydAPIError 500 "boom") ∧
    ∀ r : PyVal,
      api_can_pay c1Oracle [("studentId", .str "S1"), ("amount_cents", .num 5000)] ≠
        .ok r := by
  constructor
  · rfl
  · intro r h
    rw [show api_can_pay c1Oracle [("studentId", .str "S1"), ("amount_cents", .num 5000)] =
      .error (PyErr.rapydAPIError 500 "boom") from rfl] at h
    exact Except.noConfusion h

/-- C1 amended: none of the four payment handlers contains a
try/except, so an error raised by a provider client call (transport
failure or non-2xx status, surfaced as the client's `RapydMoneyAPIError`)
propagates out of the handler unchanged; the response-level failure
bodies are produced only on business-level branches. -/
theorem c1_amended_errors_propagate :
    ∀ (o : RapydOracle) (e : PyErr),
      (∀ (body : List (String × PyVal)) (sv : PyVal) (c : ℚ),
        bget body "studentId" = sv → sv.truthy = true →
        bget body "amount_cents" = .num c →
        o.balanceResp (pyStr sv) = .error e →
        api_can_pay o body = .error e)
      ∧ (∀ (body : List (String × PyVal)) (mv sv : PyVal) (c : ℚ),
        bget body "merchantId" = mv → mv.truthy = true →
        bget body "studentId" = sv → sv.truthy = true →
        bget body "amount_cents" = .num c →
        o.getUserResp (pyStr mv) = .error e →
        api_pay_user o body = .error e)
      ∧ (∀ (body : List (String × PyVal)) (sv : PyVal) (c : ℚ),
        bget body "sponsorId" = sv → sv.truthy = true →
        bget body "amount_cents" = .num c →
        o.getUserResp (pyStr sv) = .error e →
        api_fund_user o body = .error e)
      ∧ (∀ (body : List (String × PyVal)) (spv stv : PyVal) (c : ℚ),
        bget body "sponsorId" = spv → spv.truthy = true →
        bget body "studentId" = stv → stv.truthy = true →
        bget body "amount_cents" = .num c →
        o.getUserResp (pyStr spv) = .error e →
        api_sponsor_user o body = .error e) := by
  intro o e
  refine ⟨?_, ?_, ?_, ?_⟩
  · intro body sv c hsv htr hc hresp
    simp only [api_can_pay, hsv, hc, pyDiv100, htr, if_true, get_balance, hresp]
  · intro body mv sv c hmv hmtr hsv hstr hc hresp
    simp only [api_pay_user, hmv, hsv, hmtr, hstr, hc, Bool.and_self, if_true,
      pyDiv100, get_user, hresp]
  · intro body sv c hsv htr hc hresp
    simp only [api_fund_user, hsv, htr, hc, if_true, pyDiv100, get_user, hresp]
  · intro body spv stv c hspv hsptr hstv hsttr hc hresp
    simp only [api_sponsor_user, hspv, hstv, hsptr, hsttr, hc, Bool.and_self, if_true,
      pyDiv100, get_user, hresp]

/-- Witness for the amended C1 at concrete requests for all four
handlers. -/
theorem c1_amended_witness :
    api_can_pay c1Oracle [("studentId", .str "S1"), ("amount_cents", .num 5000)] =
      .error (PyErr.rapydAPIError 500 "boom") ∧
    api_pay_user c1Oracle [("merchantId", .str "M1"), ("studentId", .str "S1"),
        ("idempotency_key", .str "k"), ("amount_cents", .num 5000)] =
      .error (PyErr.rapydAPIError 502 "upstream down") ∧
    api_fund_user c1Oracle [("sponsorId", .str "P1"), ("amount_cents", .num 5000)] =
      .error (PyErr.rapydAPIError 502 "upstream down") ∧
    api_sponsor_user c1Oracle [("sponsorId", .str "P1"), ("studentId", .str "S1"),
        ("idempotency_key", .str "k"), ("amount_cents", .num 5000)] =
      .error (PyErr.rapydAPIError 502 "upstream down") :=
  ⟨(c1_amended_errors_propagate c1Oracle (.rapydAPIError 500 "boom")).1
      _ (.str "S1") 5000 rfl rfl rfl rfl,
   (c1_amended_errors_propagate c1Oracle (.rapydAPIError 502 "upstream down")).2.1
      _ (.str "M1") (.str "S1") 5000 rfl rfl rfl rfl rfl rfl,
   (c1_amended_errors_propagate c1Oracle (.rapydAPIError 502 "upstream down")).2.2.1
      _ (.str "P1") 5000 rfl rfl rfl rfl,
   (c1_amended_errors_propagate c1Oracle (.rapydAPIError 502 "upstream down")).2.2.2
      _ (.str "P1") (.str "S1") 5000 rfl rfl rfl rfl rfl rfl⟩

/-! ### Claim C3 -/

/-- A provider oracle that always returns an empty 2xx body. -/
def c3Oracle : RapydOracle where
  getUserResp := fun _ => .ok .none
  balanceResp := fun _ => .ok .none
  recipientResp := fun _ => .ok .none
  transferResp := fun _ _ _ _ => .ok .none
  mintResp := fun _ => .ok .none
  createUserResp := fun _ => .ok .none
  activatePayResp := fun _ => .ok .none

/-- Counterexample to C3: on a request with `studentId` absent (and no
`amount_cents` either), `api_can_pay` does not return the UserNotFound
body — the unconditional `amount_cents / 100.0` on line 39 raises a
`TypeError` first. -/
theorem c3_counterexample :
    api_can_pay c3Oracle [] = .error PyErr.typeError ∧
    api_can_pay c3Oracle [] ≠ .ok userNotFoundResp := by
  refine ⟨rfl, ?_⟩
  intro h
  rw [show api_can_pay c3Oracle [] = .error PyErr.typeError from rfl] at h
  exact Except.noConfusion h

/-- C3 amended: provided the `amount_cents` division succeeds (the field
holds a number), `api_can_pay` returns the UserNotFound body whenever
`studentId` is absent; and with a truthy `studentId` whose balance is
fetched it returns the InsufficientFunds body exactly when the ZAR
balance is strictly below `amount_cents / 100`, the ok body otherwise.
Requests whose `amount_cents` is absent or non-numeric instead raise a
`TypeError` before the `studentId` check. -/
theorem c3_amended_can_pay :
    ∀ (o : RapydOracle) (body : List (String × PyVal)) (c : ℚ),
      bget body "amount_cents" = .num c →
      ((body.lookup "studentId" = Option.none →
        api_can_pay o body = .ok userNotFoundResp)
      ∧ (∀ (sv : PyVal) (b : RapydMoneyBalance),
          bget body "studentId" = sv → sv.truthy = true →
          get_balance o (pyStr sv) = .ok b →
          api_can_pay o body =
            .ok (if b.zar < c / 100 then insufficientResp else canPayOkResp))) := by
  intro o body c hc
  constructor
  · intro h
    have hb : bget body "studentId" = PyVal.none := by simp [bget, h]
    simp only [api_can_pay, hb, hc, pyDiv100, PyVal.truthy, Bool.false_eq_true,
      if_false, reduceIte]
  · intro sv b hsv htr hbal
    simp only [api_can_pay, hsv, hc, pyDiv100, htr, if_true, hbal, balanceTruthy,
      div100_eq_div]
    split <;> rfl

/-- Witness for the amended C3: a missing student id with a numeric
amount yields the UserNotFound body; a present student id with ZAR
balance 40.00 against 50.00 requested yields the InsufficientFunds
body. -/
theorem c3_amended_witness :
    api_can_pay c3Oracle [("amount_cents", .num 5000)] = .ok userNotFoundResp ∧
    api_can_pay c10Oracle [("studentId", .str "S1"), ("amount_cents", .num 5000)] =
      .ok insufficientResp := by
  constructor
  · exact (c3_amended_can_pay c3Oracle [("amount_cents", .num 5000)] 5000 rfl).1 rfl
  · have h := (c3_amended_can_pay c10Oracle
      [("studentId", .str "S1"), ("amount_cents", .num 5000)] 5000 rfl).2
      (.str "S1") { zar := 40, usd := 0 } rfl rfl (by decide)
    rw [h]
    norm_num

/-! ### Claims C2 and C6 -/

/-- The provider-side success condition of a transfer response: a dict
whose `message` value's string form contains `"successful"`
case-insensitively. -/
def transferSuccess : PyVal → Bool
  | .obj kvs =>
      match kvs.lookup "message" with
      | some m => strContains (asciiLower (pyStr m)) "successful"
      | Option.none => false
  | _ => false

theorem payOk_ne_payFail : payOkResp ≠ payFailResp := by
  simp [payOkResp, payFailResp]

theorem payFail_ne_payOk : payFailResp ≠ payOkResp := fun h => payOk_ne_payFail h.symm

theorem payTail_falsy (raw : PyVal) (h : raw.truthy = false) :
    appPayTail (doTransferPost (.ok raw)) = .ok payFailResp := by
  have h1 : doTransferPost (.ok raw) = .ok (.bool false) := by
    simp only [doTransferPost, h, Bool.false_eq_true, if_false]
  rw [h1]
  rfl

theorem payTail_obj (kvs : List (String × PyVal)) :
    appPayTail (doTransferPost (.ok (.obj kvs))) =
      .ok (if transferSuccess (.obj kvs) = true then payOkResp else payFailResp) := by
  cases kvs with
  | nil => rfl
  | cons hd tl =>
      have htr : (PyVal.obj (hd :: tl)).truthy = true := by
        simp [PyVal.truthy]
      rcases hkl : List.lookup "message" (hd :: tl) with _ | m
      · have hany : (hd :: tl).any (fun kv => kv.1 == "message") = false := by
          rw [lookup_any_eq_isSome, hkl]
          rfl
        have h1 : doTransferPost (.ok (.obj (hd :: tl))) = .ok (.bool false) := by
          simp only [doTransferPost, htr, if_true, pyMem, hany, Bool.false_eq_true,
            if_false]
        have h2 : transferSuccess (.obj (hd :: tl)) = false := by
          simp only [transferSuccess, hkl]
        rw [h1, h2]
        rfl
      · have hany : (hd :: tl).any (fun kv => kv.1 == "message") = true := by
          rw [lookup_any_eq_isSome, hkl]
          rfl
        have hsub : pySubscr (.obj (hd :: tl)) "message" = .ok m := by
          simp only [pySubscr, hkl]
        have h2 : transferSuccess (.obj (hd :: tl)) =
            strContains (asciiLower (pyStr m)) "successful" := by
          simp only [transferSuccess, hkl]
        by_cases hs : strContains (asciiLower (pyStr m)) "successful"
        · have h1 : doTransferPost (.ok (.obj (hd :: tl))) = .ok (.obj (hd :: tl)) := by
            simp only [doTransferPost, htr, if_true, pyMem, hany, hsub, hs]
          have h3 : appPayTail (.ok (.obj (hd :: tl))) = .ok payOkResp := by
            simp only [appPayTail, htr, if_true, pyMem, hany, hsub, hs]
          rw [h1, h3, h2, if_pos hs]
        · have h1 : doTransferPost (.ok (.obj (hd :: tl))) = .ok (.bool false) := by
            simp only [doTransferPost, htr, if_true, pyMem, hany, hsub, hs,
              Bool.false_eq_true, if_false]
          rw [h1, h2, if_neg hs]
          rfl

theorem payTail_not_ok (raw : PyVal) (hno : ∀ kvs, raw ≠ .obj kvs) :
    appPayTail (doTransferPost (.ok raw)) ≠ .ok payOkResp := by
  by_cases htr : raw.truthy = true
  · cases raw with
    | obj kvs => exact absurd rfl (hno kvs)
    | none => simp [PyVal.truthy] at htr
    | bool b =>
        have hb : b = true := by simpa [PyVal.truthy] using htr
        subst hb
        intro hcon
        rw [show appPayTail (doTransferPost (.ok (.bool true))) =
          .error PyErr.typeError from rfl] at hcon
        exact Except.noConfusion hcon
    | num q =>
        have h1 : doTransferPost (.ok (.num q)) = .error .typeError := by
          simp only [doTransferPost, htr, if_true, pyMem]
        intro hcon
        rw [h1] at hcon
        rw [show appPayTail (.error PyErr.typeError) = .error PyErr.typeError from rfl]
          at hcon
        exact Except.noConfusion hcon
    | str s =>
        by_cases hm : strContains s "message"
        · have h1 : doTransferPost (.ok (.str s)) = .error .typeError := by
            simp only [doTransferPost, htr, if_true, pyMem, hm, pySubscr]
          intro hcon
          rw [h1] at hcon
          rw [show appPayTail (.error PyErr.typeError) = .error PyErr.typeError from rfl]
            at hcon
          exact Except.noConfusion hcon
        · have h1 : doTransferPost (.ok (.str s)) = .ok (.bool false) := by
            simp only [doTransferPost, htr, if_true, pyMem, hm, Bool.false_eq_true,
              if_false]
          intro hcon
          rw [h1] at hcon
          exact payFail_ne_payOk (Except.ok.inj hcon)
    | arr xs =>
        by_cases hm : xs.any (fun v => match v with | .str s => s == "message" | _ => false)
        · have h1 : doTransferPost (.ok (.arr xs)) = .error .typeError := by
            simp only [doTransferPost, htr, if_true, pyMem, hm, pySubscr]
          intro hcon
          rw [h1] at hcon
          rw [show appPayTail (.error PyErr.typeError) = .error PyErr.typeError from rfl]
            at hcon
          exact Except.noConfusion hcon
        · have h1 : doTransferPost (.ok (.arr xs)) = .ok (.bool false) := by
            simp only [doTransferPost, htr, if_true, pyMem, hm, Bool.false_eq_true,
              if_false]
          intro hcon
          rw [h1] at hcon
          exact payFail_ne_payOk (Except.ok.inj hcon)
  · have hf : raw.truthy = false := by simpa using htr
    intro hcon
    rw [payTail_falsy raw hf] at hcon
    exact payFail_ne_payOk (Except.ok.inj hcon)

theorem payTail_spec (raw : PyVal) :
    (appPayTail (doTransferPost (.ok raw)) = .ok payOkResp ↔ transferSuccess raw = true)
    ∧ (raw.truthy = false → appPayTail (doTransferPost (.ok raw)) = .ok payFailResp)
    ∧ (∀ rkvs, raw = .obj rkvs → transferSuccess raw = false →
        appPayTail (doTransferPost (.ok raw)) = .ok payFailResp) := by
  refine ⟨?_, payTail_falsy raw, ?_⟩
  · by_cases hobj : ∃ kvs, raw = PyVal.obj kvs
    · obtain ⟨kvs, rfl⟩ := hobj
      rw [payTail_obj]
      by_cases hs : transferSuccess (.obj kvs) = true
      · rw [if_pos hs]
        simp [hs]
      · rw [if_neg hs]
        constructor
        · intro hcon
          exact absurd (Except.ok.inj hcon) payFail_ne_payOk
        · intro hcon
          exact absurd hcon hs
    · push_neg at hobj
      have h1 : transferSuccess raw = false := by
        cases raw with
        | obj kvs => exact absurd rfl (hobj kvs)
        | none => rfl
        | bool b => rfl
        | num q => rfl
        | str s => rfl
        | arr xs => rfl
      simp only [h1, Bool.false_eq_true, iff_false]
      exact payTail_not_ok raw hobj
  · intro rkvs hr hs
    subst hr
    rw [payTail_obj, if_neg]
    simp [hs]

/-- Reduction of `api_pay_user` up to the transfer call, under the
resolution hypotheses: the handler's result is the post-processing of
the raw transfer response requested at exactly these arguments. -/
theorem pay_user_reduces (o : RapydOracle) (body : List (String × PyVal))
    (mv sv kv : PyVal) (c : ℚ) (mu su : RapydMoneyUser) (rec : PyVal)
    (hmv : bget body "merchantId" = mv) (hmtr : mv.truthy = true)
    (hsv : bget body "studentId" = sv) (hstr : sv.truthy = true)
    (hkv : bget body "idempotency_key" = kv)
    (hc : bget body "amount_cents" = .num c)
    (hmu : get_user o (pyStr mv) = .ok mu)
    (hsu : get_user o (pyStr sv) = .ok su)
    (hrec : get_recipient o su.payment_identifier = .ok rec)
    (hrtr : rec.truthy = true) :
    api_pay_user o body =
      appPayTail (doTransferPost (o.transferResp su.id mu.payment_identifier
        (div100 c) ("Idem_" ++ pyStr kv))) := by
  simp only [api_pay_user, hmv, hsv, hmtr, hstr, hkv, hc, Bool.and_self, if_true,
    pyDiv100, hmu, hsu, userTruthy, hrec, hrtr, do_transfer]

/-- Reduction of `api_sponsor_user` up to the transfer call. -/
theorem sponsor_user_reduces (o : RapydOracle) (body : List (String × PyVal))
    (spv stv kv : PyVal) (c : ℚ) (spu stu : RapydMoneyUser) (rec : PyVal)
    (hspv : bget body "sponsorId" = spv) (hsptr : spv.truthy = true)
    (hstv : bget body "studentId" = stv) (hsttr : stv.truthy = true)
    (hkv : bget body "idempotency_key" = kv)
    (hc : bget body "amount_cents" = .num c)
    (hspu : get_user o (pyStr spv) = .ok spu)
    (hstu : get_user o (pyStr stv) = .ok stu)
    (hrec : get_recipient o stu.payment_identifier = .ok rec)
    (hrtr : rec.truthy = true) :
    api_sponsor_user o body =
      appPayTail (doTransferPost (o.transferResp spu.id stu.payment_identifier
        (div100 c) ("Idem_" ++ pyStr kv))) := by
  simp only [api_sponsor_user, hspv, hstv, hsptr, hsttr, hkv, hc, Bool.and_self,
    if_true, pyDiv100, hspu, hstu, userTruthy, hrec, hrtr, do_transfer]

/-- A provider user object accepted by `RapydMoneyUser.from_api`. -/
def sampleUserVal : PyVal :=
  .obj [("id", .str "u1"), ("email", .str "u@x.y"), ("firstName", .str "F"),
        ("lastName", .str "L"), ("publicKey", .str "pk"),
        ("paymentIdentifier", .str "pay1")]

/-- The `RapydMoneyUser` that `sampleUserVal` validates to. -/
def sampleUser : RapydMoneyUser :=
  { id := "u1", email := "u@x.y", first_name := "F", last_name := "L",
    public_key := "pk", payment_identifier := "pay1" }

/-- An oracle that resolves every party and recipient but answers the
transfer with a truthy plain-text body containing `"message"`. -/
def c2Oracle : RapydOracle where
  getUserResp := fun _ => .ok sampleUserVal
  balanceResp := fun _ => .ok .none
  recipientResp := fun _ => .ok (.obj [("id", .str "r1")])
  transferResp := fun _ _ _ _ => .ok (.str "message pending")
  mintResp := fun _ => .ok .none
  createUserResp := fun _ => .ok .none
  activatePayResp := fun _ => .ok .none

/-- A well-formed `/pay-user` request body. -/
def c2Body : List (String × PyVal) :=
  [("merchantId", .str "m1"), ("studentId", .str "s1"),
   ("idempotency_key", .str "k1"), ("amount_cents", .num 100)]

/-- Counterexample to C2: with both ids present, both parties resolved
and the recipient resolved, a truthy non-dict transfer response that
contains `"message"` as a substring makes `do_transfer`'s
`data['message']` raise a `TypeError` — the operation raises instead of
returning the `{ok: false}` transfer-failed body the claim promises for
every non-successful response. -/
theorem c2_counterexample :
    api_pay_user c2Oracle c2Body = .error PyErr.typeError ∧
    api_pay_user c2Oracle c2Body ≠ .ok payFailResp ∧
    api_pay_user c2Oracle c2Body ≠ .ok payOkResp := by
  refine ⟨rfl, ?_, ?_⟩ <;> intro h <;>
    rw [show api_pay_user c2Oracle c2Body = .error PyErr.typeError from rfl] at h <;>
    exact Except.noConfusion h

/-- C2 amended: under the claim's resolution hypotheses, `PayUser` (and
`SponsorUser`) returns `{ok: true}` iff the raw transfer response is a
dict whose `message` value's string form contains `"successful"`
case-insensitively; every falsy response and every dict without such a
message yields the `{ok: false}` transfer-failed body; but a truthy
non-dict response may instead raise a `TypeError` that propagates (see
`c2_counterexample`). -/
theorem c2_amended_transfer_success :
    (∀ (o : RapydOracle) (body : List (String × PyVal)) (mv sv kv : PyVal) (c : ℚ)
      (mu su : RapydMoneyUser) (rec raw : PyVal),
      bget body "merchantId" = mv → mv.truthy = true →
      bget body "studentId" = sv → sv.truthy = true →
      bget body "idempotency_key" = kv → bget body "amount_cents" = .num c →
      get_user o (pyStr mv) = .ok mu → get_user o (pyStr sv) = .ok su →
      get_recipient o su.payment_identifier = .ok rec → rec.truthy = true →
      o.transferResp su.id mu.payment_identifier (c / 100) ("Idem_" ++ pyStr kv) =
        .ok raw →
      ((api_pay_user o body = .ok payOkResp ↔ transferSuccess raw = true)
        ∧ (raw.truthy = false → api_pay_user o body = .ok payFailResp)
        ∧ (∀ rkvs, raw = .obj rkvs → transferSuccess raw = false →
            api_pay_user o body = .ok payFailResp)))
    ∧ (∀ (o : RapydOracle) (body : List (String × PyVal)) (spv stv kv : PyVal) (c : ℚ)
      (spu stu : RapydMoneyUser) (rec raw : PyVal),
      bget body "sponsorId" = spv → spv.truthy = true →
      bget body "studentId" = stv → stv.truthy = true →
      bget body "idempotency_key" = kv → bget body "amount_cents" = .num c →
      get_user o (pyStr spv) = .ok spu → get_user o (pyStr stv) = .ok stu →
      get_recipient o stu.payment_identifier = .ok rec → rec.truthy = true →
      o.transferResp spu.id stu.payment_identifier (c / 100) ("Idem_" ++ pyStr kv) =
        .ok raw →
      ((api_sponsor_user o body = .ok payOkResp ↔ transferSuccess raw = true)
        ∧ (raw.truthy = false → api_sponsor_user o body = .ok payFailResp)
        ∧ (∀ rkvs, raw = .obj rkvs → transferSuccess raw = false →
            api_sponsor_user o body = .ok payFailResp))) := by
  constructor
  · intro o body mv sv kv c mu su rec raw hmv hmtr hsv hstr hkv hc hmu hsu hrec hrtr
      htrans
    rw [← div100_eq_div] at htrans
    have hred := pay_user_reduces o body mv sv kv c mu su rec
      hmv hmtr hsv hstr hkv hc hmu hsu hrec hrtr
    rw [hred, htrans]
    exact payTail_spec raw
  · intro o body spv stv kv c spu stu rec raw hspv hsptr hstv hsttr hkv hc hspu hstu
      hrec hrtr htrans
    rw [← div100_eq_div] at htrans
    have hred := sponsor_user_reduces o body spv stv kv c spu stu rec
      hspv hsptr hstv hsttr hkv hc hspu hstu hrec hrtr
    rw [hred, htrans]
    exact payTail_spec raw

/-- An oracle whose transfer succeeds with the provider's free-text
success message. -/
def c2GoodOracle : RapydOracle where
  getUserResp := fun _ => .ok sampleUserVal
  balanceResp := fun _ => .ok .none
  recipientResp := fun _ => .ok (.obj [("id", .str "r1")])
  transferResp := fun _ _ _ _ => .ok (.obj [("message", .str "Transfer successful")])
  mintResp := fun _ => .ok .none
  createUserResp := fun _ => .ok .none
  activatePayResp := fun _ => .ok .none

/-- An oracle whose transfer answers with a failure message. -/
def c2BadOracle : RapydOracle where
  getUserResp := fun _ => .ok sampleUserVal
  balanceResp := fun _ => .ok .none
  recipientResp := fun _ => .ok (.obj [("id", .str "r1")])
  transferResp := fun _ _ _ _ =>
    .ok (.obj [("message", .str "Transfer failed: insufficient liquidity")])
  mintResp := fun _ => .ok .none
  createUserResp := fun _ => .ok .none
  activatePayResp := fun _ => .ok .none

/-- Witness for the amended C2: the spec's two example responses. -/
theorem c2_amended_witness :
    api_pay_user c2GoodOracle c2Body = .ok payOkResp ∧
    api_pay_user c2BadOracle c2Body = .ok payFailResp :=
  ⟨(c2_amended_transfer_success.1 c2GoodOracle c2Body
      (.str "m1") (.str "s1") (.str "k1") 100 sampleUser sampleUser
      (.obj [("id", .str "r1")]) (.obj [("message", .str "Transfer successful")])
      rfl rfl rfl rfl rfl rfl rfl rfl rfl rfl rfl).1.mpr
      (by decide),
   (c2_amended_transfer_success.1 c2BadOracle c2Body
      (.str "m1") (.str "s1") (.str "k1") 100 sampleUser sampleUser
      (.obj [("id", .str "r1")])
      (.obj [("message", .str "Transfer failed: insufficient liquidity")])
      rfl rfl rfl rfl rfl rfl rfl rfl rfl rfl rfl).2.2
      _ rfl (by decide)⟩

/-- C6: for every `/pay-user` request that reaches the transfer step the
provider is asked for a transfer from the student's user id to the
merchant's payment identifier, with amount `amount_cents / 100` and
transaction reference `"Idem_" ++ idempotency_key`; `/sponsor-user` is
identical but transfers from the sponsor's user id to the student's
payment identifier. -/
theorem c6_transfer_arguments :
    (∀ (o : RapydOracle) (body : List (String × PyVal)) (mv sv : PyVal) (k : String)
      (c : ℚ) (mu su : RapydMoneyUser) (rec : PyVal),
      bget body "merchantId" = mv → mv.truthy = true →
      bget body "studentId" = sv → sv.truthy = true →
      bget body "idempotency_key" = .str k → bget body "amount_cents" = .num c →
      get_user o (pyStr mv) = .ok mu → get_user o (pyStr sv) = .ok su →
      get_recipient o su.payment_identifier = .ok rec → rec.truthy = true →
      api_pay_user o body =
        appPayTail (doTransferPost
          (o.transferResp su.id mu.payment_identifier (c / 100) ("Idem_" ++ k))))
    ∧ (∀ (o : RapydOracle) (body : List (String × PyVal)) (spv stv : PyVal) (k : String)
      (c : ℚ) (spu stu : RapydMoneyUser) (rec : PyVal),
      bget body "sponsorId" = spv → spv.truthy = true →
      bget body "studentId" = stv → stv.truthy = true →
      bget body "idempotency_key" = .str k → bget body "amount_cents" = .num c →
      get_user o (pyStr spv) = .ok spu → get_user o (pyStr stv) = .ok stu →
      get_recipient o stu.payment_identifier = .ok rec → rec.truthy = true →
      api_sponsor_user o body =
        appPayTail (doTransferPost
          (o.transferResp spu.id stu.payment_identifier (c / 100) ("Idem_" ++ k)))) := by
  constructor
  · intro o body mv sv k c mu su rec hmv hmtr hsv hstr hkv hc hmu hsu hrec hrtr
    rw [pay_user_reduces o body mv sv (.str k) c mu su rec
      hmv hmtr hsv hstr hkv hc hmu hsu hrec hrtr, div100_eq_div]
    rfl
  · intro o body spv stv k c spu stu rec hspv hsptr hstv hsttr hkv hc hspu hstu hrec
      hrtr
    rw [sponsor_user_reduces o body spv stv (.str k) c spu stu rec
      hspv hsptr hstv hsttr hkv hc hspu hstu hrec hrtr, div100_eq_div]
    rfl

/-- Witness for C6 at concrete requests, for both handlers. -/
theorem c6_witness :
    api_pay_user c2GoodOracle c2Body =
      appPayTail (doTransferPost
        (c2GoodOracle.transferResp "u1" "pay1" ((100 : ℚ) / 100) "Idem_k1")) ∧
    api_sponsor_user c2GoodOracle
        [("sponsorId", .str "p1"), ("studentId", .str "s1"),
         ("idempotency_key", .str "k1"), ("amount_cents", .num 100)] =
      appPayTail (doTransferPost
        (c2GoodOracle.transferResp "u1" "pay1" ((100 : ℚ) / 100) "Idem_k1")) :=
  ⟨c6_transfer_arguments.1 c2GoodOracle c2Body (.str "m1") (.str "s1") "k1" 100
      sampleUser sampleUser (.obj [("id", .str "r1")])
      rfl rfl rfl rfl rfl rfl rfl rfl rfl rfl,
   c6_transfer_arguments.2 c2GoodOracle
      [("sponsorId", .str "p1"), ("studentId", .str "s1"),
       ("idempotency_key", .str "k1"), ("amount_cents", .num 100)]
      (.str "p1") (.str "s1") "k1" 100 sampleUser sampleUser
      (.obj [("id", .str "r1")]) rfl rfl rfl rfl rfl rfl rfl rfl rfl rfl⟩

/-! ### Claim C4 -/

/-- The top-level keys consulted by the registry's parse and the two
registered schemas. -/
def sqsTopFields : List String :=
  ["eventType", "timestamp", "user", "keys", "table", "source", "email",
   "magicToken", "linkUrl"]

theorem validateUserRegistered_append (emailOk : String → Bool)
    (kvs : List (String × PyVal)) (k : String) (v : PyVal) (hk : k ∉ sqsTopFields) :
    validateUserRegistered emailOk (kvs ++ [(k, v)]) =
      validateUserRegistered emailOk kvs := by
  have hmem : ∀ f, f ∈ sqsTopFields → f ≠ k := fun f hf heq => hk (heq ▸ hf)
  have he := lookup_append_single kvs k "eventType" v (hmem _ (by simp [sqsTopFields]))
  have ht := lookup_append_single kvs k "timestamp" v (hmem _ (by simp [sqsTopFields]))
  have hu := lookup_append_single kvs k "user" v (hmem _ (by simp [sqsTopFields]))
  have hks := lookup_append_single kvs k "keys" v (hmem _ (by simp [sqsTopFields]))
  have htb := lookup_append_single kvs k "table" v (hmem _ (by simp [sqsTopFields]))
  have hsr := lookup_append_single kvs k "source" v (hmem _ (by simp [sqsTopFields]))
  simp only [validateUserRegistered, literalEventField, reqStrField, he, ht, hu, hks,
    htb, hsr]

theorem validateMagicLink_append (emailOk : String → Bool)
    (kvs : List (String × PyVal)) (k : String) (v : PyVal) (hk : k ∉ sqsTopFields) :
    validateMagicLink emailOk (kvs ++ [(k, v)]) = validateMagicLink emailOk kvs := by
  have hmem : ∀ f, f ∈ sqsTopFields → f ≠ k := fun f hf heq => hk (heq ▸ hf)
  have he := lookup_append_single kvs k "eventType" v (hmem _ (by simp [sqsTopFields]))
  have ht := lookup_append_single kvs k "timestamp" v (hmem _ (by simp [sqsTopFields]))
  have hm := lookup_append_single kvs k "email" v (hmem _ (by simp [sqsTopFields]))
  have htk := lookup_append_single kvs k "magicToken" v (hmem _ (by simp [sqsTopFields]))
  have hl := lookup_append_single kvs k "linkUrl" v (hmem _ (by simp [sqsTopFields]))
  have hsr := lookup_append_single kvs k "source" v (hmem _ (by simp [sqsTopFields]))
  simp only [validateMagicLink, literalEventField, reqStrField, optStrField, he, ht,
    hm, htk, hl, hsr]

/-- C4: the registry's parse checks, in order: (a) a missing `eventType`
key fails with the missing-discriminant error; (b) a value outside the
closed two-member set fails with the unknown-event-type error; (c,d) for
a value in the set, the registered schema decides between the
schema-validation error and the fully-typed envelope; (e) an extra
top-level field not consulted by any schema never changes the outcome. -/
theorem c4_parse_order (emailOk : String → Bool) (kvs : List (String × PyVal)) :
    (kvs.lookup "eventType" = Option.none →
      parse_sqs_message emailOk (.obj kvs) = .error .missingEventType)
    ∧ (∀ v : PyVal, kvs.lookup "eventType" = some v →
        v ≠ .str "USER_REGISTERED" → v ≠ .str "STUDENT_MAGIC_LINK_REQUESTED" →
        parse_sqs_message emailOk (.obj kvs) = .error (.unknownEventType v))
    ∧ (kvs.lookup "eventType" = some (.str "USER_REGISTERED") →
        (validateUserRegistered emailOk kvs = Option.none →
          parse_sqs_message emailOk (.obj kvs) = .error .schemaError)
        ∧ (∀ m, validateUserRegistered emailOk kvs = some m →
          parse_sqs_message emailOk (.obj kvs) = .ok (.userRegistered m)))
    ∧ (kvs.lookup "eventType" = some (.str "STUDENT_MAGIC_LINK_REQUESTED") →
        (validateMagicLink emailOk kvs = Option.none →
          parse_sqs_message emailOk (.obj kvs) = .error .schemaError)
        ∧ (∀ m, validateMagicLink emailOk kvs = some m →
          parse_sqs_message emailOk (.obj kvs) = .ok (.magicLink m)))
    ∧ (∀ (k : String) (v : PyVal), k ∉ sqsTopFields →
        parse_sqs_message emailOk (.obj (kvs ++ [(k, v)])) =
          parse_sqs_message emailOk (.obj kvs)) := by
  refine ⟨?_, ?_, ?_, ?_, ?_⟩
  · intro h
    simp only [parse_sqs_message, h]
  · intro v hv h1 h2
    cases v with
    | str s =>
        have hs1 : s ≠ "USER_REGISTERED" := fun he => h1 (by rw [he])
        have hs2 : s ≠ "STUDENT_MAGIC_LINK_REQUESTED" := fun he => h2 (by rw [he])
        simp only [parse_sqs_message, hv, if_neg hs1, if_neg hs2]
    | none => simp only [parse_sqs_message, hv]
    | bool b => simp only [parse_sqs_message, hv]
    | num q => simp only [parse_sqs_message, hv]
    | arr xs => simp only [parse_sqs_message, hv]
    | obj okvs => simp only [parse_sqs_message, hv]
  · intro hv
    constructor
    · intro hval
      simp only [parse_sqs_message, hv]
      simp [hval]
    · intro m hval
      simp only [parse_sqs_message, hv]
      simp [hval]
  · intro hv
    constructor
    · intro hval
      simp only [parse_sqs_message, hv]
      simp [hval]
    · intro m hval
      simp only [parse_sqs_message, hv]
      simp [hval]
  · intro k v hk
    have hmem : ∀ f, f ∈ sqsTopFields → f ≠ k := fun f hf heq => hk (heq ▸ hf)
    have he := lookup_append_single kvs k "eventType" v
      (hmem _ (by simp [sqsTopFields]))
    simp only [parse_sqs_message, he, validateUserRegistered_append emailOk kvs k v hk,
      validateMagicLink_append emailOk kvs k v hk]

/-- The raw map of a well-formed magic-link message. -/
def c4Kvs : List (String × PyVal) :=
  [("eventType", .str "STUDENT_MAGIC_LINK_REQUESTED"), ("timestamp", .str "t1"),
   ("email", .str "a@b.c"), ("magicToken", .str "tok1")]

/-- Witness for C4: a well-formed magic-link map resolves to its typed
envelope, an unconsulted extra field at the end changes nothing, and a
map without `eventType` fails with the missing-discriminant error. -/
theorem c4_witness :
    parse_sqs_message (fun _ => true) (.obj c4Kvs) =
      .ok (.magicLink { timestamp := "t1", email := "a@b.c", magicToken := "tok1" }) ∧
    parse_sqs_message (fun _ => true) (.obj (c4Kvs ++ [("extraField", .num 7)])) =
      parse_sqs_message (fun _ => true) (.obj c4Kvs) ∧
    parse_sqs_message (fun _ => true) (.obj [("x", .str "y")]) =
      .error .missingEventType :=
  ⟨((c4_parse_order (fun _ => true) c4Kvs).2.2.2.1 rfl).2 _ rfl,
   (c4_parse_order (fun _ => true) c4Kvs).2.2.2.2 "extraField" (.num 7) (by decide),
   (c4_parse_order (fun _ => true) [("x", .str "y")]).1 rfl⟩

/-! ### Claim C5 -/

/-- C5: complete case characterization of the normalizer.  A body whose
outer decode fails is dropped; when the outer value is a map with a
string `Message` field, one inner decode is attempted and the inner
value is substituted exactly when it is a map containing `eventType`;
in every other case (inner decode failure, inner value without
`eventType` or not a map, `Message` absent or not a string, outer value
not a map) the outer value is kept unchanged.  Since the result is
either the outer value or the one decoded `Message` string, at most one
level of unwrapping is ever attempted. -/
theorem c5_normalize (jdec : String → Option PyVal) (body : String) :
    (jdec body = Option.none → normalizeBody jdec body = Option.none)
    ∧ (∀ (kvs : List (String × PyVal)) (s : String) (inner : PyVal),
        jdec body = some (.obj kvs) → kvs.lookup "Message" = some (.str s) →
        jdec s = some inner → innerHasEvent inner = true →
        normalizeBody jdec body = some inner)
    ∧ (∀ (kvs : List (String × PyVal)) (s : String),
        jdec body = some (.obj kvs) → kvs.lookup "Message" = some (.str s) →
        jdec s = Option.none →
        normalizeBody jdec body = some (.obj kvs))
    ∧ (∀ (kvs : List (String × PyVal)) (s : String) (inner : PyVal),
        jdec body = some (.obj kvs) → kvs.lookup "Message" = some (.str s) →
        jdec s = some inner → innerHasEvent inner = false →
        normalizeBody jdec body = some (.obj kvs))
    ∧ (∀ kvs : List (String × PyVal), jdec body = some (.obj kvs) →
        (∀ s : String, kvs.lookup "Message" ≠ some (.str s)) →
        normalizeBody jdec body = some (.obj kvs))
    ∧ (∀ outer : PyVal, jdec body = some outer → (∀ kvs, outer ≠ .obj kvs) →
        normalizeBody jdec body = some outer) := by
  refine ⟨?_, ?_, ?_, ?_, ?_, ?_⟩
  · intro h
    simp only [normalizeBody, h]
  · intro kvs s inner ho hm hi hev
    simp only [normalizeBody, ho, hm, hi, hev, if_true]
  · intro kvs s ho hm hi
    simp only [normalizeBody, ho, hm, hi]
  · intro kvs s inner ho hm hi hev
    simp only [normalizeBody, ho, hm, hi, hev, Bool.false_eq_true, if_false]
  · intro kvs ho hnm
    simp only [normalizeBody, ho]
  · intro outer ho hno
    cases outer with
    | obj kvs => exact absurd rfl (hno kvs)
    | none => simp only [normalizeBody, ho]
    | bool b => simp only [normalizeBody, ho]
    | num q => simp only [normalizeBody, ho]
    | str s => simp only [normalizeBody, ho]
    | arr xs => simp only [normalizeBody, ho]

/-- A concrete decoder covering the wrapped, the non-JSON-`Message`, and
the undecodable bodies. -/
def c5jdec : String → Option PyVal := fun s =>
  if s = "outerBody" then some (.obj [("Message", .str "innerBody")])
  else if s = "innerBody" then some (.obj [("eventType", .str "USER_REGISTERED")])
  else if s = "plainBody" then some (.obj [("Message", .str "not json")])
  else Option.none

/-- Witness for C5: the wrapped body is unwrapped once, the body whose
`Message` string fails to decode keeps the outer map, and an
undecodable body is dropped. -/
theorem c5_witness :
    normalizeBody c5jdec "outerBody" =
      some (.obj [("eventType", .str "USER_REGISTERED")]) ∧
    normalizeBody c5jdec "plainBody" = some (.obj [("Message", .str "not json")]) ∧
    normalizeBody c5jdec "garbage" = Option.none :=
  ⟨(c5_normalize c5jdec "outerBody").2.1 [("Message", .str "innerBody")] "innerBody"
      (.obj [("eventType", .str "USER_REGISTERED")]) rfl rfl rfl rfl,
   (c5_normalize c5jdec "plainBody").2.2.1 [("Message", .str "not json")] "not json"
      rfl rfl rfl,
   (c5_normalize c5jdec "garbage").1 rfl⟩
